import Mathlib

/-
Verification of the MinerX QRIS gateway (src/main.py) against its
natural-language specification.

The service is a thin FastAPI app with three routes:
  GET  /               → fixed liveness payload (unauthenticated)
  POST /create-qris    → protected; calls qris_processor.generate_qr
  POST /check-payment  → protected; calls qris_processor.check_payment
and one HTTP middleware `secure_internal_api` guarding exactly the two
protected paths via `hmac.compare_digest(api_key, settings.INTERNAL_API_KEY)`.

Shallow embedding conventions:
  * `settings.INTERNAL_API_KEY = os.getenv("INTERNAL_API_KEY")` is an
    `Option String` (`none` when the environment variable is unset).
  * The external collaborator (the `qris_payment` library) is opaque; its two
    operations are oracles returning `Except String _` — `.error msg` models a
    raised exception whose `str()` is `msg`.  Its result dictionaries are
    modelled with the fields the handlers read, each optional (a `.get` on a
    missing key yields `none`), following the collaborator contract
    `generate(amount) -> {qr_image: bitmap or absent}` and
    `checkStatus(ref, amount) -> {success: bool, data: {status: string}}`.
  * A PIL bitmap is opaque except for the PNG byte string that
    `img.save(buffered, format="PNG")` writes; the structure carries exactly
    those bytes.  `base64.b64encode` is implemented for real below.
  * Python truthiness: `not api_key` is true for `None` and `""`; truthiness
    of an optional bool field is `Option.getD · false`.
-/

namespace QrisService

/-- A Python string is acceptable to `hmac.compare_digest` only when every
character is ASCII (code point < 128). -/
def isASCIIStr (s : String) : Bool :=
  s.toList.all fun c => c.toNat < 128

/-- Outcome of `hmac.compare_digest`: a boolean, or a raised `TypeError`. -/
inductive CmpResult where
  | ok (b : Bool)
  | typeError
  deriving DecidableEq, Repr

/-- `hmac.compare_digest(a, b)` where `a` is the header string and `b` is
`settings.INTERNAL_API_KEY` (a `str` or `None`).  Python raises `TypeError`
when `b` is `None` (not a str/bytes) or when either `str` argument contains a
non-ASCII character; otherwise it returns timing-safe equality. -/
def compare_digest (a : String) (b : Option String) : CmpResult :=
  match b with
  | none => .typeError
  | some s => if isASCIIStr a && isASCIIStr s then .ok (a == s) else .typeError

/-- Outcome of the `secure_internal_api` middleware before the routed handler
runs: pass the request through, raise the
`HTTPException(403, "Forbidden: Invalid API Key")`, or raise a `TypeError`
from `hmac.compare_digest`.  Either exception escapes the
`@app.middleware("http")` dispatch: user middleware sits outside
`ExceptionMiddleware` in the Starlette stack (`ServerErrorMiddleware` → user
middleware → `ExceptionMiddleware` → router), so both raises are caught only
by `ServerErrorMiddleware` and surface to the caller as a plain-text
500 "Internal Server Error" (verified against FastAPI 0.115 /
Starlette 0.46). -/
inductive GateResult where
  | allow
  | forbidden403
  | typeError
  deriving DecidableEq, Repr

/-- The `secure_internal_api` middleware (src/main.py lines 52-60):
paths are matched by exact string equality against the two protected routes;
`not api_key` (header absent or empty) rejects before `compare_digest` runs;
otherwise the comparison decides. -/
def secure_internal_api (path : String) (api_key : Option String)
    (secret : Option String) : GateResult :=
  if path = "/create-qris" ∨ path = "/check-payment" then
    match api_key with
    | none => .forbidden403
    | some k =>
      if k = "" then .forbidden403
      else
        match compare_digest k secret with
        | .ok true => .allow
        | .ok false => .forbidden403
        | .typeError => .typeError
  else .allow

/-- One character of the standard base64 alphabet. -/
def b64Char (n : Nat) : Char :=
  "ABCDEFGHIJKLMNOPQRSTUVWXYZabcdefghijklmnopqrstuvwxyz0123456789+/".toList.getD n 'A'

/-- RFC 4648 base64 of a byte list, as `base64.b64encode` produces
(standard alphabet, `=` padding). -/
def b64encodeList : List UInt8 → List Char
  | [] => []
  | [a] =>
      let x := a.toNat
      [b64Char (x / 4), b64Char (x % 4 * 16), '=', '=']
  | [a, b] =>
      let x := a.toNat
      let y := b.toNat
      [b64Char (x / 4), b64Char (x % 4 * 16 + y / 16), b64Char (y % 16 * 4), '=']
  | a :: b :: c :: rest =>
      let x := a.toNat
      let y := b.toNat
      let z := c.toNat
      b64Char (x / 4) :: b64Char (x % 4 * 16 + y / 16) ::
        b64Char (y % 16 * 4 + z / 64) :: b64Char (z % 64) :: b64encodeList rest

/-- `base64.b64encode(bs).decode('utf-8')`. -/
def b64encode (bs : List UInt8) : String :=
  String.mk (b64encodeList bs)

/-- A PIL bitmap, opaque except for the PNG serialization that
`img.save(buffered, format="PNG")` writes into the buffer. -/
structure PILImage where
  pngBytes : List UInt8
  deriving DecidableEq, Repr

/-- `buffered.getvalue()` after `qr_image.save(buffered, format="PNG")`. -/
def pngEncode (img : PILImage) : List UInt8 :=
  img.pngBytes

/-- Result dictionary of `qris_processor.generate_qr`; only the `qr_image` key
is read, via `.get` (so it may be absent). -/
structure GenerateResult where
  qr_image : Option PILImage
  deriving DecidableEq, Repr

/-- The nested `data` dictionary of a `check_payment` result; only `status` is
read, via `.get`. -/
structure CheckData where
  status : Option String
  deriving DecidableEq, Repr

/-- Result dictionary of `qris_processor.check_payment`; the handler reads
`success` (a bool per the collaborator contract, possibly absent) and
`data` (possibly absent). -/
structure CheckResult where
  success : Option Bool
  data : Option CheckData
  deriving DecidableEq, Repr

/-- The opaque external collaborator `qris_processor : QRISPayment`.
`.error msg` models a raised exception with `str(e) = msg`. -/
structure Collaborator where
  generate_qr : Int → Except String GenerateResult
  check_payment : String → Int → Except String CheckResult

/-- Pydantic model `CreateQrisRequest`. -/
structure CreateQrisRequest where
  amount : Int
  order_ref : String
  deriving DecidableEq, Repr

/-- Pydantic model `QrisResponse`. -/
structure QrisResponse where
  order_ref : String
  amount : Int
  qr_image_base64 : String
  deriving DecidableEq, Repr

/-- Pydantic model `CheckStatusRequest`. -/
structure CheckStatusRequest where
  order_ref : String
  amount : Int
  deriving DecidableEq, Repr

/-- Pydantic model `StatusResponse`. -/
structure StatusResponse where
  status : String
  deriving DecidableEq, Repr

/-- Outcome of a route handler: a 200 response value, or a raised
`HTTPException(status_code, detail)`. -/
inductive HandlerResult (α : Type) where
  | ok (resp : α)
  | httpError (status : Nat) (detail : String)
  deriving DecidableEq, Repr

/-- Detail of the inner `HTTPException` raised when the generate result holds
no image. -/
def qrFailDetail : String := "Library QRIS gagal membuat gambar."

/-- `str()` of a Starlette `HTTPException` is `"<status_code>: <detail>"`. -/
def httpExceptionStr (status : Nat) (detail : String) : String :=
  toString status ++ ": " ++ detail

/-- The `/create-qris` handler (src/main.py lines 63-83).  Everything in the
`try` block — including the inner `HTTPException(500, qrFailDetail)`, which
`except Exception` also catches — is re-raised wrapped as
`HTTPException(500, "Error saat generate QR: " + str(e))`. -/
def create_qris (proc : Collaborator) (payload : CreateQrisRequest) :
    HandlerResult QrisResponse :=
  match proc.generate_qr payload.amount with
  | .error e => .httpError 500 ("Error saat generate QR: " ++ e)
  | .ok result =>
    match result.qr_image with
    | none =>
        .httpError 500
          ("Error saat generate QR: " ++ httpExceptionStr 500 qrFailDetail)
    | some qr_image =>
        let img_str := b64encode (pngEncode qr_image)
        .ok { order_ref := payload.order_ref
              amount := payload.amount
              qr_image_base64 := "data:image/png;base64," ++ img_str }

/-- `payment_result.get('data', {}).get('status')`. -/
def dataStatus (r : CheckResult) : Option String :=
  (r.data.getD { status := none }).status

/-- Python truthiness of `payment_result.get('success')` when the field is an
optional bool: `None` and `False` are falsy. -/
def pyTruthy (o : Option Bool) : Bool :=
  o.getD false

/-- The `/check-payment` handler (src/main.py lines 85-99). -/
def check_payment_status (proc : Collaborator) (payload : CheckStatusRequest) :
    HandlerResult StatusResponse :=
  match proc.check_payment payload.order_ref payload.amount with
  | .error e => .httpError 500 ("Error saat memeriksa pembayaran: " ++ e)
  | .ok payment_result =>
      let status :=
        if pyTruthy payment_result.success && (dataStatus payment_result == some "PAID")
        then "PAID" else "PENDING"
      .ok { status := status }

/-- JSON body of an HTTP response from the app. -/
inductive ResponseBody where
  | rootMsg (message : String)
  | qris (r : QrisResponse)
  | stat (r : StatusResponse)
  | detail (d : String)
  | internalError
  | notFound
  deriving DecidableEq, Repr

/-- An HTTP response: status code and body. -/
structure HttpResponse where
  status : Nat
  body : ResponseBody
  deriving DecidableEq, Repr

/-- A call made to the external collaborator while serving a request. -/
inductive CollabCall where
  | genQR (amount : Int)
  | checkPay (order_ref : String) (amount : Int)
  deriving DecidableEq, Repr

/-- Parsed JSON body of an inbound request. -/
inductive RequestBody where
  | empty
  | createQris (p : CreateQrisRequest)
  | checkStatus (p : CheckStatusRequest)
  deriving DecidableEq, Repr

/-- An inbound HTTP request: the URL path, the `X-API-KEY` header (absent or a
string), and the parsed body. -/
structure HttpRequest where
  path : String
  apiKey : Option String
  body : RequestBody
  deriving DecidableEq, Repr

/-- The whole app on one request: the `secure_internal_api` middleware runs
first; both of its raises — the `HTTPException(403)` and the `TypeError` —
escape the `@app.middleware("http")` dispatch uncaught (user middleware runs
outside `ExceptionMiddleware`), so `ServerErrorMiddleware` ends either one as
a plain-text 500 "Internal Server Error" before any handler runs; the 403
status and "Forbidden: Invalid API Key" detail never reach the wire.
Otherwise the router dispatches by path; each protected handler calls the
collaborator exactly once, recorded in the returned call list, and an
`HTTPException` raised inside a routed handler IS converted to its JSON
`detail` response, because handlers run inside `ExceptionMiddleware`.  A body
that fails pydantic validation yields FastAPI's 422. -/
def handleApp (proc : Collaborator) (secret : Option String)
    (req : HttpRequest) : HttpResponse × List CollabCall :=
  match secure_internal_api req.path req.apiKey secret with
  | .forbidden403 =>
      ({ status := 500, body := .internalError }, [])
  | .typeError =>
      ({ status := 500, body := .internalError }, [])
  | .allow =>
    if req.path = "/" then
      ({ status := 200, body := .rootMsg "MinerX QRIS Service is running" }, [])
    else if req.path = "/create-qris" then
      match req.body with
      | .createQris p =>
          (match create_qris proc p with
           | .ok r => { status := 200, body := .qris r }
           | .httpError s d => { status := s, body := .detail d },
           [.genQR p.amount])
      | _ => ({ status := 422, body := .detail "Unprocessable Entity" }, [])
    else if req.path = "/check-payment" then
      match req.body with
      | .checkStatus p =>
          (match check_payment_status proc p with
           | .ok r => { status := 200, body := .stat r }
           | .httpError s d => { status := s, body := .detail d },
           [.checkPay p.order_ref p.amount])
      | _ => ({ status := 422, body := .detail "Unprocessable Entity" }, [])
    else
      ({ status := 404, body := .notFound }, [])

/-- `sub` is a prefix of `l` (character lists). -/
def prefixMatches : List Char → List Char → Bool
  | [], _ => true
  | _ :: _, [] => false
  | a :: as, b :: bs => a == b && prefixMatches as bs

/-- `sub` occurs as a contiguous run inside `l`. -/
def containsRun (sub : List Char) : List Char → Bool
  | [] => prefixMatches sub []
  | c :: t => prefixMatches sub (c :: t) || containsRun sub t

/-- `sub in s` for strings: `sub` occurs contiguously inside `s`. -/
def strContainsSub (s sub : String) : Bool :=
  containsRun sub.toList s.toList

/-- The response body is an `HTTPException` detail whose text contains `sub`. -/
def bodyDetailContains (b : ResponseBody) (sub : String) : Bool :=
  match b with
  | .detail d => strContainsSub d sub
  | _ => false

/-- A concrete collaborator whose generate result is the bytes of "Man" and
whose payment check reports a successful, paid order. -/
def procDemo : Collaborator where
  generate_qr := fun _ => .ok { qr_image := some { pngBytes := [77, 97, 110] } }
  check_payment := fun _ _ =>
    .ok { success := some true, data := some { status := some "PAID" } }

/-- A concrete collaborator both of whose operations raise. -/
def procBoom : Collaborator where
  generate_qr := fun _ => .error "boom"
  check_payment := fun _ _ => .error "boom"

/-- A concrete collaborator whose generate result holds no image. -/
def procNoImage : Collaborator where
  generate_qr := fun _ => .ok { qr_image := none }
  check_payment := fun _ _ => .ok { success := none, data := none }

/-- The `order_ref` field of a `/create-qris` success body, when present. -/
def bodyOrderRef : ResponseBody → Option String
  | .qris r => some r.order_ref
  | _ => none

/-- The `amount` field of a `/create-qris` success body, when present. -/
def bodyAmount : ResponseBody → Option Int
  | .qris r => some r.amount
  | _ => none

/-- The `qr_image_base64` field of a `/create-qris` success body. -/
def bodyQrImage : ResponseBody → Option String
  | .qris r => some r.qr_image_base64
  | _ => none

/- ### Helper lemmas -/

theorem pyTruthy_iff (o : Option Bool) : pyTruthy o = true ↔ o = some true := by
  cases o with
  | none => simp [pyTruthy]
  | some b => cases b <;> simp [pyTruthy]

theorem prefixMatches_self (l : List Char) : prefixMatches l l = true := by
  induction l with
  | nil => rfl
  | cons a t ih => simp [prefixMatches, ih]

theorem containsRun_suffix (pre sub : List Char) :
    containsRun sub (pre ++ sub) = true := by
  induction pre with
  | nil =>
    cases sub with
    | nil => rfl
    | cons c t => simp [containsRun, prefixMatches_self]
  | cons c t ih => simp [containsRun, ih]

theorem strContainsSub_of_append (p e : String) :
    strContainsSub (p ++ e) e = true := by
  unfold strContainsSub
  have h : (p ++ e).toList = p.toList ++ e.toList := by
    cases p; cases e; rfl
  rw [h]
  exact containsRun_suffix _ _

/-- A correct, non-empty, ASCII key passes the gate on every path. -/
theorem gate_allow_self (path s : String) (hs : isASCIIStr s = true)
    (hne : s ≠ "") : secure_internal_api path (some s) (some s) = .allow := by
  by_cases hp : path = "/create-qris" ∨ path = "/check-payment" <;>
    simp [secure_internal_api, compare_digest, hp, hs, hne]

/-- Whenever the gate does not allow a request, no handler runs: the
collaborator is never called, and both escape paths (the middleware's
`HTTPException(403)` and the `TypeError`) surface as the server's plain
500. -/
theorem handleApp_gate_reject (proc : Collaborator) (secret : Option String)
    (req : HttpRequest)
    (hg : secure_internal_api req.path req.apiKey secret ≠ .allow) :
    (handleApp proc secret req).2 = [] ∧
    (handleApp proc secret req).1.status = 500 := by
  cases hgv : secure_internal_api req.path req.apiKey secret with
  | allow => exact absurd hgv hg
  | forbidden403 => simp [handleApp, hgv]
  | typeError => simp [handleApp, hgv]

/- ### Claim theorems -/

/-- C1: for every collaborator result, the `/check-payment` handler returns
status "PAID" if and only if the result's `success` field equals `true` and
its nested `data.status` field equals the string "PAID"; every other
combination yields "PENDING". -/
theorem check_payment_paid_iff (proc : Collaborator) (p : CheckStatusRequest)
    (r : CheckResult)
    (h : proc.check_payment p.order_ref p.amount = .ok r) :
    (check_payment_status proc p = .ok { status := "PAID" } ↔
      (r.success = some true ∧ dataStatus r = some "PAID")) ∧
    (¬(r.success = some true ∧ dataStatus r = some "PAID") →
      check_payment_status proc p = .ok { status := "PENDING" }) := by
  have hb : ((pyTruthy r.success && (dataStatus r == some "PAID")) = true) ↔
      (r.success = some true ∧ dataStatus r = some "PAID") := by
    rw [Bool.and_eq_true, pyTruthy_iff, beq_iff_eq]
  cases hc : (pyTruthy r.success && (dataStatus r == some "PAID")) with
  | true =>
    have hcc := hb.mp hc
    refine ⟨⟨fun _ => hcc, fun _ => ?_⟩, fun hn => absurd hcc hn⟩
    simp [check_payment_status, h, hc]
  | false =>
    have hncc : ¬(r.success = some true ∧ dataStatus r = some "PAID") := by
      intro hcc
      rw [hb.mpr hcc] at hc
      cases hc
    refine ⟨⟨fun habs => ?_, fun hcc => absurd hcc hncc⟩, fun _ => ?_⟩
    · simp [check_payment_status, h, hc] at habs
    · simp [check_payment_status, h, hc]

/-- C1 witness: a collaborator reporting `success = true` and
`data.status = "PAID"` makes the handler answer "PAID". -/
theorem check_payment_paid_iff_witness :
    check_payment_status procDemo { order_ref := "ORD-1", amount := 10000 } =
      .ok { status := "PAID" } :=
  ((check_payment_paid_iff procDemo { order_ref := "ORD-1", amount := 10000 }
      { success := some true, data := some { status := some "PAID" } }
      rfl).1).mpr ⟨rfl, rfl⟩

/-- C2: with the internal secret unset (`INTERNAL_API_KEY = None`), the gate
never allows a protected request through for any supplied header value, the
comparison never returns a match, and the collaborator is never invoked:
the API is locked out fail-closed. -/
theorem missing_secret_locks_out (proc : Collaborator) (path k : String)
    (key : Option String) (body : RequestBody)
    (hpath : path = "/create-qris" ∨ path = "/check-payment") :
    secure_internal_api path key none ≠ .allow ∧
    compare_digest k none ≠ .ok true ∧
    (handleApp proc none { path := path, apiKey := key, body := body }).2 = [] ∧
    (handleApp proc none
      { path := path, apiKey := key, body := body }).1.status ≠ 200 := by
  have hg : secure_internal_api path key none ≠ .allow := by
    rcases hpath with rfl | rfl <;>
    · rcases key with _ | kk
      · simp [secure_internal_api]
      · by_cases hk : kk = "" <;> simp [secure_internal_api, compare_digest, hk]
  have hd := handleApp_gate_reject proc none
    { path := path, apiKey := key, body := body } hg
  refine ⟨hg, by simp [compare_digest], hd.1, ?_⟩
  simp [hd.2]

/-- C2 witness: concrete lockout with an arbitrary supplied key. -/
theorem missing_secret_locks_out_witness :
    secure_internal_api "/create-qris" (some "whatever") none ≠ .allow ∧
    compare_digest "anything" none ≠ .ok true ∧
    (handleApp procDemo none
      { path := "/create-qris", apiKey := some "whatever",
        body := .empty }).2 = [] ∧
    (handleApp procDemo none
      { path := "/create-qris", apiKey := some "whatever",
        body := .empty }).1.status ≠ 200 :=
  missing_secret_locks_out procDemo "/create-qris" "anything"
    (some "whatever") .empty (Or.inl rfl)

/-- C3 counterexample: no mismatched request is answered with the claimed
403 — not the absent header, not a wrong ASCII key (whose
`HTTPException(403)` escapes the user middleware), and not a non-ASCII key
(whose `TypeError` escapes the same way): each concrete case surfaces
as 500. -/
theorem mismatched_key_not_always_403 :
    ((none : Option String) ≠ some "rahasia" ∧
      (handleApp procDemo (some "rahasia")
        { path := "/create-qris", apiKey := none,
          body := .createQris { amount := 10000, order_ref := "ORD-1" } }).1.status
        ≠ 403 ∧
      (handleApp procDemo (some "rahasia")
        { path := "/create-qris", apiKey := none,
          body := .createQris { amount := 10000, order_ref := "ORD-1" } }).1.status
        = 500) ∧
    ((some "wrong" : Option String) ≠ some "rahasia" ∧
      (handleApp procDemo (some "rahasia")
        { path := "/create-qris", apiKey := some "wrong",
          body := .createQris { amount := 10000, order_ref := "ORD-1" } }).1.status
        ≠ 403 ∧
      (handleApp procDemo (some "rahasia")
        { path := "/create-qris", apiKey := some "wrong",
          body := .createQris { amount := 10000, order_ref := "ORD-1" } }).1.status
        = 500) ∧
    ((some "é" : Option String) ≠ some "rahasia" ∧
      (handleApp procDemo (some "rahasia")
        { path := "/create-qris", apiKey := some "é",
          body := .createQris { amount := 10000, order_ref := "ORD-1" } }).1.status
        ≠ 403 ∧
      (handleApp procDemo (some "rahasia")
        { path := "/create-qris", apiKey := some "é",
          body := .createQris { amount := 10000, order_ref := "ORD-1" } }).1.status
        = 500) := by
  refine ⟨⟨by decide, by decide, by decide⟩, ⟨by decide, by decide, by decide⟩,
    ⟨by decide, by decide, by decide⟩⟩

/-- C3 amended: a protected request whose `X-API-KEY` does not match the
configured secret never reaches the handler (no collaborator call) but is
answered 500, never the claimed 403: the middleware raises
`HTTPException(403)` when the header is absent, empty, or an ASCII string
differing from a present ASCII secret (and `compare_digest` raises
`TypeError` otherwise), yet either exception escapes the
`@app.middleware("http")` dispatch and surfaces as a plain 500. -/
theorem unmatched_key_never_reaches_handler (proc : Collaborator)
    (path : String) (key secret : Option String) (body : RequestBody)
    (k s : String)
    (hpath : path = "/create-qris" ∨ path = "/check-payment")
    (hnm : ∀ t, key = some t → secret ≠ some t) :
    (handleApp proc secret { path := path, apiKey := key, body := body }).2 = [] ∧
    (handleApp proc secret
      { path := path, apiKey := key, body := body }).1.status = 500 ∧
    (handleApp proc secret
      { path := path, apiKey := key, body := body }).1.status ≠ 403 ∧
    (key = none → secure_internal_api path key secret = .forbidden403) ∧
    (key = some "" → secure_internal_api path key secret = .forbidden403) ∧
    (key = some k → secret = some s → isASCIIStr k = true → isASCIIStr s = true →
      secure_internal_api path key secret = .forbidden403) := by
  have hg : secure_internal_api path key secret ≠ .allow := by
    rcases hpath with rfl | rfl <;>
    · rcases key with _ | kk
      · simp [secure_internal_api]
      · by_cases hk : kk = ""
        · simp [secure_internal_api, hk]
        · have hns : secret ≠ some kk := hnm kk rfl
          rcases secret with _ | ss
          · simp [secure_internal_api, compare_digest, hk]
          · have hne : kk ≠ ss := fun he => hns (by rw [he])
            have hb : (kk == ss) = false := by simp [hne]
            by_cases ha : (isASCIIStr kk && isASCIIStr ss) = true <;>
              simp [secure_internal_api, compare_digest, hk, ha, hb]
  have hd := handleApp_gate_reject proc secret
    { path := path, apiKey := key, body := body } hg
  refine ⟨hd.1, hd.2, ?_, ?_, ?_, ?_⟩
  · simp [hd.2]
  · intro hk
    subst hk
    rcases hpath with rfl | rfl <;> simp [secure_internal_api]
  · intro hk
    subst hk
    rcases hpath with rfl | rfl <;> simp [secure_internal_api]
  · intro hk hsec hka hsa
    subst hk
    subst hsec
    have hne : k ≠ s := fun he => hnm k rfl (by rw [he])
    have hb : (k == s) = false := by simp [hne]
    by_cases hke : k = ""
    · rcases hpath with rfl | rfl <;> simp [secure_internal_api, hke]
    · rcases hpath with rfl | rfl <;>
        simp [secure_internal_api, compare_digest, hka, hsa, hke, hb]

/-- C3 amended witness: a plain wrong ASCII key against an ASCII secret makes
no collaborator call, surfaces as 500 (not 403), and does take the
middleware's `HTTPException(403)` raise path. -/
theorem unmatched_key_never_reaches_handler_witness :
    (handleApp procDemo (some "rahasia")
      { path := "/create-qris", apiKey := some "wrong",
        body := .createQris { amount := 10000, order_ref := "ORD-1" } }).2 = [] ∧
    (handleApp procDemo (some "rahasia")
      { path := "/create-qris", apiKey := some "wrong",
        body := .createQris { amount := 10000, order_ref := "ORD-1" } }).1.status
      = 500 ∧
    (handleApp procDemo (some "rahasia")
      { path := "/create-qris", apiKey := some "wrong",
        body := .createQris { amount := 10000, order_ref := "ORD-1" } }).1.status
      ≠ 403 ∧
    ((some "wrong" : Option String) = none →
      secure_internal_api "/create-qris" (some "wrong") (some "rahasia")
        = .forbidden403) ∧
    ((some "wrong" : Option String) = some "" →
      secure_internal_api "/create-qris" (some "wrong") (some "rahasia")
        = .forbidden403) ∧
    ((some "wrong" : Option String) = some "wrong" →
      (some "rahasia" : Option String) = some "rahasia" →
      isASCIIStr "wrong" = true → isASCIIStr "rahasia" = true →
      secure_internal_api "/create-qris" (some "wrong") (some "rahasia")
        = .forbidden403) :=
  unmatched_key_never_reaches_handler procDemo "/create-qris" (some "wrong")
    (some "rahasia") (.createQris { amount := 10000, order_ref := "ORD-1" })
    "wrong" "rahasia" (Or.inl rfl)
    (by intro t ht; injection ht with h; subst h; decide)

/-- C4: an authenticated, successful `/create-qris` request echoes the
supplied `order_ref` and `amount` back unmodified in the 200 response. -/
theorem create_qris_echoes_request (proc : Collaborator) (s : String)
    (p : CreateQrisRequest) (img : PILImage)
    (hs : isASCIIStr s = true) (hne : s ≠ "")
    (hgen : proc.generate_qr p.amount = .ok { qr_image := some img }) :
    (handleApp proc (some s)
      { path := "/create-qris", apiKey := some s,
        body := .createQris p }).1.status = 200 ∧
    bodyOrderRef (handleApp proc (some s)
      { path := "/create-qris", apiKey := some s,
        body := .createQris p }).1.body = some p.order_ref ∧
    bodyAmount (handleApp proc (some s)
      { path := "/create-qris", apiKey := some s,
        body := .createQris p }).1.body = some p.amount := by
  have hg := gate_allow_self "/create-qris" s hs hne
  refine ⟨?_, ?_, ?_⟩ <;>
    simp [handleApp, hg, create_qris, hgen, bodyOrderRef, bodyAmount]

/-- C4 witness: concrete echo of order reference and amount. -/
theorem create_qris_echoes_request_witness :
    (handleApp procDemo (some "rahasia")
      { path := "/create-qris", apiKey := some "rahasia",
        body := .createQris { amount := 10000, order_ref := "ORD-1" } }).1.status
      = 200 ∧
    bodyOrderRef (handleApp procDemo (some "rahasia")
      { path := "/create-qris", apiKey := some "rahasia",
        body := .createQris { amount := 10000, order_ref := "ORD-1" } }).1.body
      = some "ORD-1" ∧
    bodyAmount (handleApp procDemo (some "rahasia")
      { path := "/create-qris", apiKey := some "rahasia",
        body := .createQris { amount := 10000, order_ref := "ORD-1" } }).1.body
      = some 10000 :=
  create_qris_echoes_request procDemo "rahasia"
    { amount := 10000, order_ref := "ORD-1" } { pngBytes := [77, 97, 110] }
    (by decide) (by decide) rfl

/-- C5: on an authenticated request to either protected route, a collaborator
exception with message `e` yields a 500 whose detail text contains `e`. -/
theorem collaborator_exception_yields_500 (proc : Collaborator) (s e : String)
    (p : CreateQrisRequest) (q : CheckStatusRequest)
    (hs : isASCIIStr s = true) (hne : s ≠ "")
    (h1 : proc.generate_qr p.amount = .error e)
    (h2 : proc.check_payment q.order_ref q.amount = .error e) :
    ((handleApp proc (some s)
        { path := "/create-qris", apiKey := some s,
          body := .createQris p }).1.status = 500 ∧
      bodyDetailContains (handleApp proc (some s)
        { path := "/create-qris", apiKey := some s,
          body := .createQris p }).1.body e = true) ∧
    ((handleApp proc (some s)
        { path := "/check-payment", apiKey := some s,
          body := .checkStatus q }).1.status = 500 ∧
      bodyDetailContains (handleApp proc (some s)
        { path := "/check-payment", apiKey := some s,
          body := .checkStatus q }).1.body e = true) := by
  have hg1 := gate_allow_self "/create-qris" s hs hne
  have hg2 := gate_allow_self "/check-payment" s hs hne
  refine ⟨⟨?_, ?_⟩, ⟨?_, ?_⟩⟩
  · simp [handleApp, hg1, create_qris, h1]
  · have hb : (handleApp proc (some s)
        { path := "/create-qris", apiKey := some s,
          body := .createQris p }).1.body =
        .detail ("Error saat generate QR: " ++ e) := by
      simp [handleApp, hg1, create_qris, h1]
    rw [hb]
    simp [bodyDetailContains, strContainsSub_of_append]
  · simp [handleApp, hg2, check_payment_status, h2]
  · have hb : (handleApp proc (some s)
        { path := "/check-payment", apiKey := some s,
          body := .checkStatus q }).1.body =
        .detail ("Error saat memeriksa pembayaran: " ++ e) := by
      simp [handleApp, hg2, check_payment_status, h2]
    rw [hb]
    simp [bodyDetailContains, strContainsSub_of_append]

/-- C5 witness: a collaborator raising "boom" on both operations. -/
theorem collaborator_exception_yields_500_witness :
    ((handleApp procBoom (some "rahasia")
        { path := "/create-qris", apiKey := some "rahasia",
          body := .createQris { amount := 10000, order_ref := "ORD-1" } }).1.status
        = 500 ∧
      bodyDetailContains (handleApp procBoom (some "rahasia")
        { path := "/create-qris", apiKey := some "rahasia",
          body := .createQris { amount := 10000, order_ref := "ORD-1" } }).1.body
        "boom" = true) ∧
    ((handleApp procBoom (some "rahasia")
        { path := "/check-payment", apiKey := some "rahasia",
          body := .checkStatus { order_ref := "ORD-1", amount := 10000 } }).1.status
        = 500 ∧
      bodyDetailContains (handleApp procBoom (some "rahasia")
        { path := "/check-payment", apiKey := some "rahasia",
          body := .checkStatus { order_ref := "ORD-1", amount := 10000 } }).1.body
        "boom" = true) :=
  collaborator_exception_yields_500 procBoom "rahasia" "boom"
    { amount := 10000, order_ref := "ORD-1" }
    { order_ref := "ORD-1", amount := 10000 }
    (by decide) (by decide) rfl rfl

/-- C6: an authenticated `/create-qris` request whose generate result holds no
image fails with a 500 whose detail embeds the "QR generation failed"
message (the inner `HTTPException` is re-wrapped by the `except` clause but
stays a 500). -/
theorem missing_qr_image_yields_500 (proc : Collaborator) (s : String)
    (p : CreateQrisRequest)
    (hs : isASCIIStr s = true) (hne : s ≠ "")
    (hgen : proc.generate_qr p.amount = .ok { qr_image := none }) :
    (handleApp proc (some s)
      { path := "/create-qris", apiKey := some s,
        body := .createQris p }).1.status = 500 ∧
    bodyDetailContains (handleApp proc (some s)
      { path := "/create-qris", apiKey := some s,
        body := .createQris p }).1.body qrFailDetail = true := by
  have hg := gate_allow_self "/create-qris" s hs hne
  refine ⟨?_, ?_⟩
  · simp [handleApp, hg, create_qris, hgen]
  · have hb : (handleApp proc (some s)
        { path := "/create-qris", apiKey := some s,
          body := .createQris p }).1.body =
        .detail ("Error saat generate QR: " ++ httpExceptionStr 500 qrFailDetail) := by
      simp [handleApp, hg, create_qris, hgen]
    rw [hb]
    decide

/-- C6 witness: a collaborator returning a result without `qr_image`. -/
theorem missing_qr_image_yields_500_witness :
    (handleApp procNoImage (some "rahasia")
      { path := "/create-qris", apiKey := some "rahasia",
        body := .createQris { amount := 10000, order_ref := "ORD-1" } }).1.status
      = 500 ∧
    bodyDetailContains (handleApp procNoImage (some "rahasia")
      { path := "/create-qris", apiKey := some "rahasia",
        body := .createQris { amount := 10000, order_ref := "ORD-1" } }).1.body
      qrFailDetail = true :=
  missing_qr_image_yields_500 procNoImage "rahasia"
    { amount := 10000, order_ref := "ORD-1" } (by decide) (by decide) rfl

/-- C7: the gate guards exactly the two protected paths, matched by exact
string equality — every other path is allowed through unconditionally for any
header and secret, `GET /` answers its fixed liveness payload with 200 without
any key, and on the two protected paths a keyless request is rejected. -/
theorem gate_exactly_two_paths (path : String) (key secret : Option String)
    (proc : Collaborator)
    (h1 : path ≠ "/create-qris") (h2 : path ≠ "/check-payment") :
    secure_internal_api path key secret = .allow ∧
    (handleApp proc secret { path := "/", apiKey := key, body := .empty }).1 =
      { status := 200, body := .rootMsg "MinerX QRIS Service is running" } ∧
    secure_internal_api "/create-qris" none secret = .forbidden403 ∧
    secure_internal_api "/check-payment" none secret = .forbidden403 := by
  refine ⟨?_, ?_, ?_, ?_⟩
  · simp [secure_internal_api, h1, h2]
  · have hg : secure_internal_api "/" key secret = .allow := by
      simp [secure_internal_api]
    simp [handleApp, hg]
  · simp [secure_internal_api]
  · simp [secure_internal_api]

/-- C7 witness: an unprotected path with no key, and the root route. -/
theorem gate_exactly_two_paths_witness :
    secure_internal_api "/health" none none = .allow ∧
    (handleApp procDemo none { path := "/", apiKey := none, body := .empty }).1 =
      { status := 200, body := .rootMsg "MinerX QRIS Service is running" } ∧
    secure_internal_api "/create-qris" none none = .forbidden403 ∧
    secure_internal_api "/check-payment" none none = .forbidden403 :=
  gate_exactly_two_paths "/health" none none procDemo (by decide) (by decide)

/-- C8: the `qr_image_base64` field of a successful `/create-qris` response is
the collaborator's bitmap serialized to PNG bytes, base64-encoded, and
prefixed with "data:image/png;base64," to form a data URI. -/
theorem qr_image_is_png_b64_data_uri (proc : Collaborator) (s : String)
    (p : CreateQrisRequest) (img : PILImage)
    (hs : isASCIIStr s = true) (hne : s ≠ "")
    (hgen : proc.generate_qr p.amount = .ok { qr_image := some img }) :
    (handleApp proc (some s)
      { path := "/create-qris", apiKey := some s,
        body := .createQris p }).1.status = 200 ∧
    bodyQrImage (handleApp proc (some s)
      { path := "/create-qris", apiKey := some s,
        body := .createQris p }).1.body =
      some ("data:image/png;base64," ++ b64encode (pngEncode img)) := by
  have hg := gate_allow_self "/create-qris" s hs hne
  refine ⟨?_, ?_⟩ <;>
    simp [handleApp, hg, create_qris, hgen, bodyQrImage]

/-- C8 witness: the PNG bytes of "Man" become the data URI
"data:image/png;base64,TWFu". -/
theorem qr_image_is_png_b64_data_uri_witness :
    (handleApp procDemo (some "rahasia")
      { path := "/create-qris", apiKey := some "rahasia",
        body := .createQris { amount := 10000, order_ref := "ORD-1" } }).1.status
      = 200 ∧
    bodyQrImage (handleApp procDemo (some "rahasia")
      { path := "/create-qris", apiKey := some "rahasia",
        body := .createQris { amount := 10000, order_ref := "ORD-1" } }).1.body
      = some ("data:image/png;base64," ++
          b64encode (pngEncode { pngBytes := [77, 97, 110] })) :=
  qr_image_is_png_b64_data_uri procDemo "rahasia"
    { amount := 10000, order_ref := "ORD-1" } { pngBytes := [77, 97, 110] }
    (by decide) (by decide) rfl

/-- C9 counterexample: the empty `X-API-KEY` against the empty-string secret
is not "rejected with 403" — the middleware's `HTTPException(403)` escapes the
user-middleware dispatch and the caller sees the plain 500, never a 403. -/
theorem empty_key_not_403_at_http_surface :
    (handleApp procDemo (some "")
      { path := "/create-qris", apiKey := some "",
        body := .createQris { amount := 10000, order_ref := "ORD-1" } }).1.status
      ≠ 403 ∧
    (handleApp procDemo (some "")
      { path := "/create-qris", apiKey := some "",
        body := .createQris { amount := 10000, order_ref := "ORD-1" } }).1.status
      = 500 := by
  refine ⟨by decide, by decide⟩

/-- C9 amended: an empty `X-API-KEY` on a protected route is rejected for
every configured secret — even the empty-string secret, for which
`compare_digest` itself would have matched — because the `not api_key`
emptiness check short-circuits before `hmac.compare_digest` runs and takes
the middleware's `HTTPException(403)` raise path; the handler is never
invoked, but at the HTTP surface the rejection appears as a plain 500, not
403, since the exception escapes the user-middleware dispatch. -/
theorem empty_key_short_circuits_before_comparison (proc : Collaborator)
    (path : String) (secret : Option String) (body : RequestBody)
    (hpath : path = "/create-qris" ∨ path = "/check-payment") :
    secure_internal_api path (some "") secret = .forbidden403 ∧
    compare_digest "" (some "") = .ok true ∧
    (handleApp proc secret
      { path := path, apiKey := some "", body := body }).2 = [] ∧
    (handleApp proc secret
      { path := path, apiKey := some "", body := body }).1.status = 500 := by
  have hgv : secure_internal_api path (some "") secret = .forbidden403 := by
    rcases hpath with rfl | rfl <;> simp [secure_internal_api]
  have hg : secure_internal_api path (some "") secret ≠ .allow := by
    simp [hgv]
  have hd := handleApp_gate_reject proc secret
    { path := path, apiKey := some "", body := body } hg
  exact ⟨hgv, rfl, hd.1, hd.2⟩

/-- C9 amended witness: empty key against the empty-string secret. -/
theorem empty_key_short_circuits_before_comparison_witness :
    secure_internal_api "/create-qris" (some "") (some "") = .forbidden403 ∧
    compare_digest "" (some "") = .ok true ∧
    (handleApp procDemo (some "")
      { path := "/create-qris", apiKey := some "", body := .empty }).2 = [] ∧
    (handleApp procDemo (some "")
      { path := "/create-qris", apiKey := some "",
        body := .empty }).1.status = 500 :=
  empty_key_short_circuits_before_comparison procDemo "/create-qris"
    (some "") .empty (Or.inl rfl)

/-- C10: `hmac.compare_digest` is total only on ASCII strings — a non-empty
non-ASCII key, or any non-empty key when the secret is absent, makes the
middleware raise a `TypeError` instead of rejecting cleanly with 403; when
both sides are ASCII the comparison returns their equality. -/
theorem compare_digest_type_error_cases (path k s : String)
    (hpath : path = "/create-qris" ∨ path = "/check-payment")
    (hk : k ≠ "") :
    (isASCIIStr k = false →
      secure_internal_api path (some k) (some s) = .typeError) ∧
    secure_internal_api path (some k) none = .typeError ∧
    (isASCIIStr k = true → isASCIIStr s = true →
      compare_digest k (some s) = .ok (k == s)) := by
  refine ⟨?_, ?_, ?_⟩
  · intro ha
    rcases hpath with rfl | rfl <;>
      simp [secure_internal_api, compare_digest, hk, ha]
  · rcases hpath with rfl | rfl <;>
      simp [secure_internal_api, compare_digest, hk]
  · intro h1 h2
    simp [compare_digest, h1, h2]

/-- C10 witness: the key "é" (code point 233) against an ASCII secret, and
against an absent secret, both escape as `TypeError`. -/
theorem compare_digest_type_error_cases_witness :
    secure_internal_api "/check-payment" (some "é") (some "rahasia")
      = .typeError ∧
    secure_internal_api "/check-payment" (some "é") none = .typeError :=
  ⟨(compare_digest_type_error_cases "/check-payment" "é" "rahasia"
      (Or.inr rfl) (by decide)).1 (by decide),
   (compare_digest_type_error_cases "/check-payment" "é" "rahasia"
      (Or.inr rfl) (by decide)).2.1⟩

end QrisService
